import Mathlib

/-!
Verification of the subscription lifecycle and billing engine of the
`final_broadband_managnment` backend (FastAPI + SQLAlchemy).

The embedding translates the relevant handlers of `backend/app.py`,
`backend/engineer_routes.py` and `backend/plan_expiry_checker.py` into pure
Lean functions.  Database rows become Lean structures, the database session
becomes explicit lists of rows threaded through the functions, and an HTTP
`HTTPException` raised before `db.commit()` becomes `Except.error` (FastAPI's
session teardown discards the uncommitted unit of work, so an error response
leaves the stored state unchanged).

Dates are stored by the code as ISO `"YYYY-MM-DD"` strings and compared
lexicographically (e.g. in the expiry sweeper's SQL filter); for zero-padded
ISO strings that order coincides with the numeric order of
`year*10000 + month*100 + day`, which is how `Date` is ordered here.
Monetary values (`Float` columns) are modelled as `ℚ` with Python's
`round(x, 2)` made explicit as round-half-to-even at two decimals.
-/

namespace Broadband

/-- A calendar date, as carried by the `"YYYY-MM-DD"` string columns. -/
structure Date where
  year : Nat
  month : Nat
  day : Nat
deriving DecidableEq, Repr, BEq

/-- Numeric key realising the lexicographic (ISO-string) order on dates. -/
def Date.key (d : Date) : Nat := d.year * 10000 + d.month * 100 + d.day

instance : LE Date := ⟨fun a b => a.key ≤ b.key⟩
instance : LT Date := ⟨fun a b => a.key < b.key⟩

instance (a b : Date) : Decidable (a ≤ b) :=
  inferInstanceAs (Decidable (a.key ≤ b.key))

instance (a b : Date) : Decidable (a < b) :=
  inferInstanceAs (Decidable (a.key < b.key))

/-- A point in time (`datetime.now()`), a date plus seconds since midnight.
`datetime.strptime(s, "%Y-%m-%d")` yields the midnight instant of its date. -/
structure DateTime where
  date : Date
  seconds : Nat
deriving DecidableEq, Repr

/-- Numeric key realising Python's `datetime` order (seconds < 86400). -/
def DateTime.key (t : DateTime) : Nat := t.date.key * 86400 + t.seconds

/-- The midnight instant of a date, as produced by `datetime.strptime`. -/
def DateTime.ofDate (d : Date) : DateTime := ⟨d, 0⟩

/-- Gregorian leap-year test (as in `calendar.isleap`). -/
def isLeap (y : Nat) : Bool := (y % 4 == 0 && y % 100 != 0) || y % 400 == 0

/-- Number of days of month `m` of year `y` (as in `calendar.monthrange`). -/
def daysInMonth (y m : Nat) : Nat :=
  if m = 2 then (if isLeap y then 29 else 28)
  else if m = 4 ∨ m = 6 ∨ m = 9 ∨ m = 11 then 30
  else 31

/-- `d + relativedelta(months=n)` (dateutil): shift the month by `n`,
normalising overflow into the year, and keep the day-of-month, clamped to
the length of the target month (Jan 31 + 1 month = Feb 28/29).  `t` is the
zero-based month count since year 0; it is non-negative for every calendar
date and `n ≥ -12`. -/
def addMonths (d : Date) (n : Int) : Date :=
  let t : Nat := ((d.year : Int) * 12 + (d.month : Int) - 1 + n).toNat
  ⟨t / 12, t % 12 + 1, min d.day (daysInMonth (t / 12) (t % 12 + 1))⟩

/-- The day after `d` (plain Gregorian succession). -/
def Date.next (d : Date) : Date :=
  if d.day < daysInMonth d.year d.month then ⟨d.year, d.month, d.day + 1⟩
  else if d.month < 12 then ⟨d.year, d.month + 1, 1⟩
  else ⟨d.year + 1, 1, 1⟩

/-- `d + timedelta(days=n)`. -/
def addDays (d : Date) (n : Nat) : Date := Nat.iterate Date.next n d

/-- Floor of a rational (numerator and denominator are already reduced,
`den > 0`, so floor division of `num` by `den` is exact). -/
def ratFloor (x : ℚ) : ℤ := Int.fdiv x.num x.den

/-- Round a rational to the nearest integer, ties to even — the semantics of
Python 3's built-in `round`.  The fractional part `r` satisfies
`0 ≤ r < 1`; comparing it with `1/2` is done on its reduced
numerator/denominator (`r < 1/2 ↔ 2 * r.num < r.den`, as `r.den > 0`),
which keeps the definition kernel-reducible. -/
def roundHalfEven (x : ℚ) : ℤ :=
  let f : ℤ := ratFloor x
  let r : ℚ := x - (f : ℚ)
  if 2 * r.num < (r.den : ℤ) then f
  else if (r.den : ℤ) < 2 * r.num then f + 1
  else if f % 2 = 0 then f else f + 1

/-- Python's `round(x, 2)`. -/
def round2 (x : ℚ) : ℚ := (roundHalfEven (x * 100) : ℚ) / 100

/-- Row of `broadband_plans` (`models.BroadbandPlan`); only the columns the
lifecycle engine reads. -/
structure Plan where
  id : String
  name : String
  price : ℚ
deriving DecidableEq, Repr, BEq

/-- Row of `users` (`models.User`): the subscriber record.  String date
columns are modelled as `Date`, nullable ones as `Option`.  Upload paths and
login credentials are plumbing and omitted. -/
structure User where
  id : String
  cs_id : String
  name : String
  phone : String
  broadband_plan_id : String
  plan_start_date : Date
  plan_expiry_date : Date
  is_plan_active : Bool
  last_renewal_date : Option Date
  payment_status : String
  old_pending_amount : Int
  payment_due_date : Date
  status : String
  created_at : Date
deriving DecidableEq, Repr, BEq

/-- Row of `billing_history` (`models.BillingHistory`): the audit-trail
entry written by the billing-update handler. -/
structure BillingHistory where
  user_id : String
  admin_email : String
  previous_payment_status : String
  new_payment_status : String
  previous_old_pending_amount : Int
  new_old_pending_amount : Int
  previous_payment_due_date : Date
  new_payment_due_date : Date
  previous_plan_id : Option String
  previous_plan_name : Option String
  new_plan_id : Option String
  new_plan_name : Option String
  change_type : String
deriving DecidableEq, Repr, BEq

/-- Row of `invoices` (`models.Invoice`).  `created_at` is the date part of
the row's creation timestamp, which is what the numbering query
`func.date(Invoice.created_at) == today.date()` compares.  The PDF path,
transaction id and free-text notes are plumbing and omitted. -/
structure Invoice where
  invoice_number : String
  user_id : String
  plan_id : String
  plan_name : String
  plan_price : ℚ
  old_pending_amount : Int
  subtotal : ℚ
  gst_rate : ℚ
  gst_amount : ℚ
  total_amount : ℚ
  payment_status : String
  payment_method : String
  payment_date : Date
  invoice_date : Date
  due_date : Date
  months_renewed : Int
  old_expiry_date : Date
  new_expiry_date : Date
  generated_by : String
  created_at : Date
deriving DecidableEq, Repr, BEq

/-- Row of `installations` (`models.Installation`); only the columns the
installation workflow touches. -/
structure Installation where
  id : String
  user_id : String
  engineer_id : Option String
  status : String
  scheduled_date : Option Date
  completed_date : Option Date
deriving DecidableEq, Repr, BEq

/-- Base-10 digits of `n`, least significant first, with explicit fuel
(`n` itself suffices, as `n / 10 < n`); empty for `n = 0`. -/
def decDigitsAux : Nat → Nat → List Nat
  | 0, _ => []
  | fuel + 1, n => if n = 0 then [] else n % 10 :: decDigitsAux fuel (n / 10)

/-- Base-10 digits of `n`, least significant first. -/
def decDigits (n : Nat) : List Nat := decDigitsAux n n

/-- Decimal digit characters of `n`, most significant first (Python `"%d"`
for a non-negative integer). -/
def decChars (n : Nat) : List Char :=
  if n = 0 then ['0'] else ((decDigits n).map Nat.digitChar).reverse

/-- Python's format spec `0{w}d`: the decimal rendering, left-padded with
zeros to width at least `w`. -/
def padChars (w n : Nat) : List Char :=
  List.replicate (w - (decChars n).length) '0' ++ decChars n

/-- `f"\x7bn:0{w}d\x7d"` as a string. -/
def pad (w n : Nat) : String := String.mk (padChars w n)

/-- `today.strftime("%Y%m%d")`. -/
def dateYYYYMMDD (d : Date) : String := pad 4 d.year ++ pad 2 d.month ++ pad 2 d.day

/-- The numbering query in `renew_user_plan`:
`db.query(func.count(Invoice.id)).filter(func.date(Invoice.created_at) == today.date())`. -/
def countInvoicesToday (invoices : List Invoice) (today : Date) : Nat :=
  (invoices.filter (fun i => decide (i.created_at = today))).length

/-- `f"INV-\x7btoday:%Y%m%d\x7d-\x7bseq:04d\x7d"`. -/
def mkInvoiceNumber (today : Date) (seq : Nat) : String :=
  "INV-" ++ dateYYYYMMDD today ++ "-" ++ pad 4 seq

/-- `db.query(BroadbandPlan).filter(BroadbandPlan.id == pid).first()`. -/
def findPlan (plans : List Plan) (pid : String) : Option Plan :=
  plans.find? (fun p => p.id == pid)

/-- Successful outcome of `renew_user_plan`: the committed subscriber row,
the invoice and billing-history tables after the commit, and the response's
invoice number / action label. -/
structure RenewOk where
  user : User
  invoices : List Invoice
  history : List BillingHistory
  invoice_number : Option String
  action : String
deriving DecidableEq, Repr

/-- `POST /api/users/\x7buser_id\x7d/renew` (`app.py`, `renew_user_plan`).
The months-range guard is the Pydantic validation
`PlanRenewalRequest.months : Field(..., ge=-12, le=12)` (`schemas.py`),
which rejects the request before the handler runs.  In the source the
subscriber row is mutated before the months > 0 plan lookup, but an
`HTTPException` there prevents the commit, so the error cases leave the
stored state unchanged, which `Except.error` captures. -/
def renew_user_plan (now : DateTime) (adminEmail : String) (plans : List Plan)
    (invoices : List Invoice) (history : List BillingHistory)
    (user : User) (months : Int) : Except String RenewOk :=
  if months < -12 ∨ 12 < months then
    .error "months must be between -12 and 12"
  else if months = 0 then
    .error "Months cannot be zero"
  else
    let new_expiry := addMonths user.plan_expiry_date months
    if months < 0 ∧ (DateTime.ofDate new_expiry).key < now.key then
      .error "Cannot reduce plan below current date"
    else
      let old_expiry := user.plan_expiry_date
      let today := now.date
      let user' : User :=
        { user with plan_expiry_date := new_expiry, is_plan_active := true,
                    status := "Active", last_renewal_date := some today }
      if 0 < months then
        match findPlan plans user.broadband_plan_id with
        | none => .error "Plan not found"
        | some plan =>
          let old_pending := user.old_pending_amount
          let plan_price : ℚ := plan.price * (months : ℚ)
          let subtotal : ℚ := plan_price + (old_pending : ℚ)
          let gst_rate : ℚ := 18
          let gst_amount := round2 (subtotal * gst_rate / 100)
          let total_amount := round2 (subtotal + gst_amount)
          let invoice_number := mkInvoiceNumber today (countInvoicesToday invoices today + 1)
          let inv : Invoice :=
            { invoice_number := invoice_number, user_id := user.id,
              plan_id := plan.id, plan_name := plan.name,
              plan_price := plan_price, old_pending_amount := old_pending,
              subtotal := subtotal, gst_rate := gst_rate,
              gst_amount := gst_amount, total_amount := total_amount,
              payment_status := "Paid", payment_method := "Renewal",
              payment_date := today, invoice_date := today,
              due_date := new_expiry, months_renewed := months,
              old_expiry_date := old_expiry, new_expiry_date := new_expiry,
              generated_by := adminEmail, created_at := today }
          .ok ⟨user', invoices ++ [inv], history, some invoice_number, "extended"⟩
      else
        .ok ⟨user', invoices, history, none, "reduced"⟩

/-- The sweeper's selection predicate
`User.plan_expiry_date <= today, User.is_plan_active == True`
(`plan_expiry_checker.py`); the SQL comparison is on ISO date strings. -/
def shouldExpire (today : Date) (u : User) : Bool :=
  decide (u.plan_expiry_date ≤ today) && u.is_plan_active

/-- The per-row mutation of the sweeper's loop body. -/
def expireUser (today : Date) (u : User) : User :=
  { u with is_plan_active := false, status := "Expired",
           payment_status := "Pending", payment_due_date := addDays today 15 }

/-- Outcome of one sweeper run: the users table after the commit and the
`expired_count` it reports. -/
structure SweepResult where
  users : List User
  expired_count : Nat
deriving DecidableEq, Repr

/-- `check_and_expire_plans` (`plan_expiry_checker.py`): flip every selected
row, leave the rest alone, commit once, report the count. -/
def check_and_expire_plans (today : Date) (users : List User) : SweepResult :=
  ⟨users.map (fun u => if shouldExpire today u then expireUser today u else u),
   (users.filter (shouldExpire today)).length⟩

/-- `POST /api/users` (`app.py`, `create_user`).  `newId` stands for the
timestamp-generated primary key, `existingPhones` for the uniqueness query;
file uploads are plumbing and omitted. -/
def create_user (today : Date) (existingPhones : List String)
    (newId cs_id name phone plan_id : String)
    (plan_start : Option Date) : Except String User :=
  if ¬ (phone.data.all Char.isDigit ∧ phone.length = 10) then
    .error "Phone must be exactly 10 digits"
  else if existingPhones.contains phone then
    .error "Mobile number already exists"
  else
    let start := plan_start.getD today
    .ok { id := newId, cs_id := cs_id, name := name, phone := phone,
          broadband_plan_id := plan_id,
          plan_start_date := start,
          plan_expiry_date := addMonths start 1,
          is_plan_active := true,
          last_renewal_date := none,
          payment_status := "Pending",
          old_pending_amount := 0,
          payment_due_date := addDays start 15,
          status := "Active",
          created_at := today }

/-- `sub.data.isPrefixOf` over all tails: substring containment, as in
Python's `in` / `str.contains`. -/
def strContainsSub (s pat : String) : Bool :=
  s.data.tails.any (fun t => pat.data.isPrefixOf t)

/-- `validate_mobile` (`engineer_routes.py`): 10 digits starting with
6/7/8/9.  The `re.sub(r"\D", ...)` strip is modelled by requiring the
digits directly. -/
def validMobile (mobile : String) : Bool :=
  mobile.data.all Char.isDigit && mobile.length == 10 &&
    (mobile.data.headD ' ' == '6' || mobile.data.headD ' ' == '7' ||
     mobile.data.headD ' ' == '8' || mobile.data.headD ' ' == '9')

/-- Python's `str.strip()`: the characters of `s` with whitespace removed
from both ends. -/
def trimChars (s : String) : List Char :=
  ((s.data.dropWhile Char.isWhitespace).reverse.dropWhile Char.isWhitespace).reverse

/-- Python's `s.split()[0]`: the first whitespace-delimited word of `s`
(empty when `s` is all whitespace). -/
def firstWord (s : String) : String :=
  String.mk ((s.data.dropWhile Char.isWhitespace).takeWhile
    (fun c => ¬ Char.isWhitespace c))

/-- The plan resolution of `add_new_customer`: first plan whose name
contains the first word of the form's plan string, else the first plan of
the catalog. -/
def resolvePlan (plans : List Plan) (planQuery : String) : Option Plan :=
  match plans.find? (fun p => strContainsSub p.name (firstWord planQuery)) with
  | some p => some p
  | none => plans.head?

/-- `POST /engineer/add-customer` (`engineer_routes.py`,
`add_new_customer`).  Photo/KYC uploads are plumbing and omitted. -/
def add_new_customer (today : Date) (existingPhones : List String)
    (plans : List Plan)
    (newId name mobile password address planQuery : String) :
    Except String User :=
  if ¬ validMobile mobile then
    .error "Invalid mobile number"
  else if password.length < 6 then
    .error "Password must be at least 6 characters"
  else if (trimChars name).length < 2 then
    .error "Name must be at least 2 characters"
  else if (trimChars address).length < 10 then
    .error "Address must be at least 10 characters"
  else if existingPhones.contains mobile then
    .error "Mobile number already exists in system"
  else
    match resolvePlan plans planQuery with
    | none => .error "No broadband plans available. Please contact admin."
    | some plan_obj =>
      let cs_id := "CS_" ++ String.mk (mobile.data.drop (mobile.length - 4))
      .ok { id := newId, cs_id := cs_id, name := String.mk (trimChars name),
            phone := mobile,
            broadband_plan_id := plan_obj.id,
            plan_start_date := today,
            plan_expiry_date := addMonths today 1,
            is_plan_active := false,
            last_renewal_date := none,
            payment_status := "Pending",
            old_pending_amount := 0,
            payment_due_date := addDays today 15,
            status := "Pending Installation",
            created_at := today }

/-- `PUT /engineer/update-task/\x7buser_id\x7d` (`engineer_routes.py`,
`update_installation_task`).  `scheduled_date = none` covers both the
missing form field and the unparsable date string (both are 400 responses
before any write). -/
def update_installation_task (today : Date) (engineerId newInstId : String)
    (user : User) (inst : Option Installation)
    (status : String) (scheduled_date : Option Date) :
    Except String (User × Option Installation) :=
  if ¬ (status = "Installation Scheduled" ∨ status = "Completed") then
    .error "Invalid status"
  else if status = "Installation Scheduled" then
    match scheduled_date with
    | none => .error "scheduled_date is required for Installation Scheduled"
    | some d =>
      let user' := { user with status := "Installation Scheduled" }
      let inst' : Installation :=
        match inst with
        | none =>
          { id := newInstId, user_id := user.id,
            engineer_id := some engineerId,
            status := "Installation Scheduled",
            scheduled_date := some d, completed_date := none }
        | some i =>
          { i with status := "Installation Scheduled",
                   engineer_id := some engineerId, scheduled_date := some d }
      .ok (user', some inst')
  else
    let user' :=
      { user with status := "Active", is_plan_active := true,
                  plan_start_date := today,
                  plan_expiry_date := addMonths today 1,
                  payment_due_date := addDays today 15 }
    let inst' := inst.map (fun i =>
      { i with status := "Completed", completed_date := some today })
    .ok (user', inst')

/-- `PUT /api/users/\x7buser_id\x7d/billing` (`app.py`, `update_user_billing`):
apply the new billing fields unconditionally and append one audit entry. -/
def update_user_billing (adminEmail : String) (plans : List Plan)
    (history : List BillingHistory) (user : User)
    (newPlanId newPaymentStatus : String) (newPending : Int)
    (newDueDate : Date) (newPlanStart : Option Date) :
    User × List BillingHistory :=
  let oldPlan := findPlan plans user.broadband_plan_id
  let newPlan := findPlan plans newPlanId
  let user' :=
    { user with broadband_plan_id := newPlanId,
                payment_status := newPaymentStatus,
                old_pending_amount := newPending,
                payment_due_date := newDueDate,
                plan_start_date := newPlanStart.getD user.plan_start_date }
  let entry : BillingHistory :=
    { user_id := user.id, admin_email := adminEmail,
      previous_payment_status := user.payment_status,
      new_payment_status := newPaymentStatus,
      previous_old_pending_amount := user.old_pending_amount,
      new_old_pending_amount := newPending,
      previous_payment_due_date := user.payment_due_date,
      new_payment_due_date := newDueDate,
      previous_plan_id := oldPlan.map Plan.id,
      previous_plan_name := oldPlan.map Plan.name,
      new_plan_id := newPlan.map Plan.id,
      new_plan_name := newPlan.map Plan.name,
      change_type := "billing_update" }
  (user', history ++ [entry])

/-- Value of a digit-character list read as a base-10 numeral (`'0'` is
code point 48); used to show the zero-padded invoice-sequence suffix is
injective. -/
def charsVal (l : List Char) : Nat :=
  l.foldl (fun acc c => acc * 10 + (c.toNat - 48)) 0

/-- Numbers produced by `N` back-to-back renewals of one subscriber on one
day: each call threads the subscriber row and the invoice table it just
committed into the next call (the billing-history table plays no role in
renewals and is passed empty). -/
def genNumbers (now : DateTime) (adminEmail : String) (plans : List Plan)
    (months : Int) : Nat → User → List Invoice → List String
  | 0, _, _ => []
  | n + 1, user, invoices =>
    match renew_user_plan now adminEmail plans invoices [] user months with
    | .ok r =>
      (r.invoice_number.getD "") ::
        genNumbers now adminEmail plans months n r.user r.invoices
    | .error _ => []

/-- The subscriber-facing invariant of the spec:
`is_plan_active ⇒ status = Active`. -/
def activeImpliesActive (u : User) : Prop :=
  u.is_plan_active = true → u.status = "Active"

/-- Sample catalog row, price ₹999/month. -/
def planBasic : Plan := ⟨"p1", "Basic 999", 999⟩

/-- Sample catalog row, price ₹799/month. -/
def planValue : Plan := ⟨"p2", "Value 799", 799⟩

/-- Sample subscriber: active, no carried debt, expiry Jan 31 2025. -/
def userActive : User :=
  { id := "usr_1", cs_id := "CS_3210", name := "Asha Rao",
    phone := "9876543210", broadband_plan_id := "p1",
    plan_start_date := ⟨2025, 1, 1⟩, plan_expiry_date := ⟨2025, 1, 31⟩,
    is_plan_active := true, last_renewal_date := none,
    payment_status := "Pending", old_pending_amount := 0,
    payment_due_date := ⟨2025, 1, 16⟩, status := "Active",
    created_at := ⟨2025, 1, 1⟩ }

/-- Sample subscriber of the spec's end-to-end scenario: plan ₹799,
carried debt ₹200, expiry Jan 15 2025. -/
def userDebt : User :=
  { userActive with
    id := "usr_2", cs_id := "CS_0000",
    phone := "9876500000", broadband_plan_id := "p2",
    plan_expiry_date := ⟨2025, 1, 15⟩, old_pending_amount := 200 }

/-- Sample clock: Jan 10 2025, 10:00 in the morning. -/
def nowJan10 : DateTime := ⟨⟨2025, 1, 10⟩, 36000⟩

/-- Sample subscriber in the `Expired` state, expiry Jun 30 2025. -/
def userExpired : User :=
  { userActive with
    id := "usr_3", cs_id := "CS_1111", phone := "9876511111",
    plan_expiry_date := ⟨2025, 6, 30⟩,
    is_plan_active := false, status := "Expired" }

instance {ε α : Type} [DecidableEq ε] [DecidableEq α] :
    DecidableEq (Except ε α) := fun a b =>
  match a, b with
  | .ok x, .ok y => decidable_of_iff (x = y) (by simp)
  | .error e, .error f => decidable_of_iff (e = f) (by simp)
  | .ok _, .error _ => isFalse (fun h => Except.noConfusion h)
  | .error _, .ok _ => isFalse (fun h => Except.noConfusion h)

/-- The subscriber row `add_new_customer` commits for the sample input of
the C8 witness (engineer onboarding of Meena Iyer on Jan 10 2025). -/
def engCustomer : User :=
  { id := "usr_8", cs_id := "CS_8888", name := "Meena Iyer",
    phone := "9876588888", broadband_plan_id := "p1",
    plan_start_date := ⟨2025, 1, 10⟩, plan_expiry_date := ⟨2025, 2, 10⟩,
    is_plan_active := false, last_renewal_date := none,
    payment_status := "Pending", old_pending_amount := 0,
    payment_due_date := ⟨2025, 1, 25⟩, status := "Pending Installation",
    created_at := ⟨2025, 1, 10⟩ }

/-- The subscriber row `create_user` commits for the sample input of the
C8 witness (admin onboarding of Ravi on Jan 10 2025). -/
def adminCustomer : User :=
  { id := "usr_9", cs_id := "CS_9999", name := "Ravi",
    phone := "9876599999", broadband_plan_id := "p1",
    plan_start_date := ⟨2025, 1, 10⟩, plan_expiry_date := ⟨2025, 2, 10⟩,
    is_plan_active := true, last_renewal_date := none,
    payment_status := "Pending", old_pending_amount := 0,
    payment_due_date := ⟨2025, 1, 25⟩, status := "Active",
    created_at := ⟨2025, 1, 10⟩ }

/-- The invoice row built by a successful extension, as a function of the
call's inputs. -/
def renewalInvoice (now : DateTime) (adminEmail : String)
    (invoices : List Invoice) (user : User) (plan : Plan) (months : Int) :
    Invoice :=
  { invoice_number := mkInvoiceNumber now.date (countInvoicesToday invoices now.date + 1),
    user_id := user.id, plan_id := plan.id, plan_name := plan.name,
    plan_price := plan.price * (months : ℚ),
    old_pending_amount := user.old_pending_amount,
    subtotal := plan.price * (months : ℚ) + (user.old_pending_amount : ℚ),
    gst_rate := 18,
    gst_amount :=
      round2 ((plan.price * (months : ℚ) + (user.old_pending_amount : ℚ)) * 18 / 100),
    total_amount :=
      round2 ((plan.price * (months : ℚ) + (user.old_pending_amount : ℚ)) +
        round2 ((plan.price * (months : ℚ) + (user.old_pending_amount : ℚ)) * 18 / 100)),
    payment_status := "Paid", payment_method := "Renewal",
    payment_date := now.date, invoice_date := now.date,
    due_date := addMonths user.plan_expiry_date months,
    months_renewed := months,
    old_expiry_date := user.plan_expiry_date,
    new_expiry_date := addMonths user.plan_expiry_date months,
    generated_by := adminEmail, created_at := now.date }

theorem roundHalfEven_intCast (n : ℤ) : roundHalfEven ((n : ℚ)) = n := by
  unfold roundHalfEven ratFloor
  simp [Rat.num_intCast, Rat.den_intCast, Int.fdiv_one]

theorem round2_eq (x : ℚ) (n : ℤ) (h : x * 100 = (n : ℚ)) :
    round2 x = (n : ℚ) / 100 := by
  rw [round2, h, roundHalfEven_intCast]

theorem renew_pos_eq (now : DateTime) (adminEmail : String)
    (plans : List Plan) (invoices : List Invoice)
    (history : List BillingHistory) (user : User) (months : Int)
    (plan : Plan) (h1 : 0 < months) (h2 : months ≤ 12)
    (hp : findPlan plans user.broadband_plan_id = some plan) :
    renew_user_plan now adminEmail plans invoices history user months =
      .ok { user := { user with
              plan_expiry_date := addMonths user.plan_expiry_date months,
              is_plan_active := true, status := "Active",
              last_renewal_date := some now.date },
            invoices := invoices ++
              [renewalInvoice now adminEmail invoices user plan months],
            history := history,
            invoice_number :=
              some (mkInvoiceNumber now.date (countInvoicesToday invoices now.date + 1)),
            action := "extended" } := by
  have hA : ¬ (months < -12 ∨ 12 < months) := by omega
  have hB : ¬ (months = 0) := by omega
  have hC : ¬ (months < 0 ∧
      (DateTime.ofDate (addMonths user.plan_expiry_date months)).key < now.key) := by
    rintro ⟨h, _⟩; omega
  simp only [renew_user_plan, if_neg hA, if_neg hB, if_neg hC, if_pos h1, hp,
    renewalInvoice]

theorem renew_neg_eq (now : DateTime) (adminEmail : String)
    (plans : List Plan) (invoices : List Invoice)
    (history : List BillingHistory) (user : User) (months : Int)
    (h1 : months < 0) (h2 : -12 ≤ months)
    (h3 : ¬ (DateTime.ofDate (addMonths user.plan_expiry_date months)).key < now.key) :
    renew_user_plan now adminEmail plans invoices history user months =
      .ok { user := { user with
              plan_expiry_date := addMonths user.plan_expiry_date months,
              is_plan_active := true, status := "Active",
              last_renewal_date := some now.date },
            invoices := invoices, history := history,
            invoice_number := none, action := "reduced" } := by
  have hA : ¬ (months < -12 ∨ 12 < months) := by omega
  have hB : ¬ (months = 0) := by omega
  have hC : ¬ (months < 0 ∧
      (DateTime.ofDate (addMonths user.plan_expiry_date months)).key < now.key) := by
    rintro ⟨_, hk⟩; exact h3 hk
  have hD : ¬ (0 < months) := by omega
  simp only [renew_user_plan, if_neg hA, if_neg hB, if_neg hC, if_neg hD]

theorem renew_zero_eq (now : DateTime) (adminEmail : String)
    (plans : List Plan) (invoices : List Invoice)
    (history : List BillingHistory) (user : User) :
    renew_user_plan now adminEmail plans invoices history user 0 =
      .error "Months cannot be zero" := by
  have hA : ¬ ((0 : Int) < -12 ∨ (12 : Int) < 0) := by omega
  simp [renew_user_plan, hA]

theorem renew_reduce_rejected (now : DateTime) (adminEmail : String)
    (plans : List Plan) (invoices : List Invoice)
    (history : List BillingHistory) (user : User) (months : Int)
    (h1 : months < 0)
    (hlt : addMonths user.plan_expiry_date months < now.date) :
    ∃ e, renew_user_plan now adminEmail plans invoices history user months =
      .error e := by
  by_cases hr : months < -12
  · exact ⟨"months must be between -12 and 12", by simp [renew_user_plan, hr]⟩
  · have hA : ¬ (months < -12 ∨ 12 < months) := by omega
    have hB : ¬ (months = 0) := by omega
    have hk : (addMonths user.plan_expiry_date months).key < now.date.key := hlt
    have hC : (DateTime.ofDate (addMonths user.plan_expiry_date months)).key
        < now.key := by
      show (addMonths user.plan_expiry_date months).key * 86400 + 0
          < now.date.key * 86400 + now.seconds
      omega
    exact ⟨"Cannot reduce plan below current date",
      by simp [renew_user_plan, hA, hB, h1, hC]⟩

/-- C1: a renewal with `months > 0` on a subscriber whose plan exists moves
`plan_expiry_date` to the old expiry plus `months` calendar months
(`addMonths`: day-of-month kept, clamped to the target month's length),
sets `is_plan_active = true`, `status = "Active"`,
`last_renewal_date = today`, appends exactly one row to the invoice table
and leaves the billing-history table untouched.  The `months ≤ 12` bound is
the request schema's `le=12` validation, under which every such call
reaches the handler. -/
theorem C1_renew_extension (now : DateTime) (adminEmail : String)
    (plans : List Plan) (invoices : List Invoice)
    (history : List BillingHistory) (user : User) (months : Int)
    (plan : Plan) (h1 : 0 < months) (h2 : months ≤ 12)
    (hp : findPlan plans user.broadband_plan_id = some plan) :
    renew_user_plan now adminEmail plans invoices history user months =
      .ok { user := { user with
              plan_expiry_date := addMonths user.plan_expiry_date months,
              is_plan_active := true, status := "Active",
              last_renewal_date := some now.date },
            invoices := invoices ++
              [renewalInvoice now adminEmail invoices user plan months],
            history := history,
            invoice_number :=
              some (mkInvoiceNumber now.date (countInvoicesToday invoices now.date + 1)),
            action := "extended" } :=
  renew_pos_eq now adminEmail plans invoices history user months plan h1 h2 hp

/-- Witness for C1 at a concrete input; note the end-of-month clamp
Jan 31 2025 + 1 month = Feb 28 2025. -/
theorem C1_renew_extension_witness :
    renew_user_plan nowJan10 "billing@isp.test" [planBasic] [] [] userActive 1 =
      .ok { user := { userActive with
              plan_expiry_date := ⟨2025, 2, 28⟩,
              is_plan_active := true, status := "Active",
              last_renewal_date := some ⟨2025, 1, 10⟩ },
            invoices := [renewalInvoice nowJan10 "billing@isp.test" [] userActive planBasic 1],
            history := [],
            invoice_number := some "INV-20250110-0001",
            action := "extended" } := by
  have h := C1_renew_extension nowJan10 "billing@isp.test" [planBasic] [] []
    userActive 1 planBasic (by decide) (by decide) (by decide)
  rw [h]
  simp only [List.nil_append]
  exact congrArg Except.ok (by
    rw [RenewOk.mk.injEq]
    exact ⟨by decide, rfl, rfl, by decide, rfl⟩)

/-- C4: every invoice written by an extension has
`subtotal = plan_price * months + old_pending_amount`,
`gst_amount = round(subtotal * 18 / 100, 2)` and
`total_amount = round(subtotal + gst_amount, 2)` — the total is the sum of
the two already-rounded components.  The named instances:
price 999, 1 month, no debt gives GST 179.82 and total 1178.82; the
end-to-end scenario (price 799, 2 months, debt 200) gives subtotal 1798,
GST 323.64, total 2121.64. -/
theorem C4_invoice_arithmetic :
    (∀ (now : DateTime) (adminEmail : String) (plans : List Plan)
        (invoices : List Invoice) (history : List BillingHistory)
        (user : User) (months : Int) (plan : Plan),
      0 < months → months ≤ 12 →
      findPlan plans user.broadband_plan_id = some plan →
      ∃ r inv,
        renew_user_plan now adminEmail plans invoices history user months = .ok r ∧
        r.invoices = invoices ++ [inv] ∧
        inv.subtotal = plan.price * (months : ℚ) + (user.old_pending_amount : ℚ) ∧
        inv.gst_amount = round2 (inv.subtotal * 18 / 100) ∧
        inv.total_amount = round2 (inv.subtotal + inv.gst_amount)) ∧
    (renewalInvoice nowJan10 "billing@isp.test" [] userActive planBasic 1).gst_amount
      = 17982 / 100 ∧
    (renewalInvoice nowJan10 "billing@isp.test" [] userActive planBasic 1).total_amount
      = 117882 / 100 ∧
    (renewalInvoice nowJan10 "billing@isp.test" [] userDebt planValue 2).subtotal
      = 1798 ∧
    (renewalInvoice nowJan10 "billing@isp.test" [] userDebt planValue 2).gst_amount
      = 32364 / 100 ∧
    (renewalInvoice nowJan10 "billing@isp.test" [] userDebt planValue 2).total_amount
      = 212164 / 100 := by
  refine ⟨?_, ?_, ?_, ?_, ?_, ?_⟩
  · intro now adminEmail plans invoices history user months plan h1 h2 hp
    exact ⟨_, renewalInvoice now adminEmail invoices user plan months,
      renew_pos_eq now adminEmail plans invoices history user months plan h1 h2 hp,
      rfl, rfl, rfl, rfl⟩
  · show round2 ((planBasic.price * ((1 : Int) : ℚ) +
        ((userActive.old_pending_amount : Int) : ℚ)) * 18 / 100) = 17982 / 100
    rw [round2_eq _ 17982 (by norm_num [planBasic, userActive])]
    norm_num
  · show round2 ((planBasic.price * ((1 : Int) : ℚ) +
        ((userActive.old_pending_amount : Int) : ℚ)) +
        round2 ((planBasic.price * ((1 : Int) : ℚ) +
          ((userActive.old_pending_amount : Int) : ℚ)) * 18 / 100)) = 117882 / 100
    rw [round2_eq ((planBasic.price * ((1 : Int) : ℚ) +
        ((userActive.old_pending_amount : Int) : ℚ)) * 18 / 100) 17982
        (by norm_num [planBasic, userActive])]
    rw [round2_eq _ 117882 (by norm_num [planBasic, userActive])]
    norm_num
  · show planValue.price * ((2 : Int) : ℚ) +
        ((userDebt.old_pending_amount : Int) : ℚ) = 1798
    norm_num [planValue, userDebt, userActive]
  · show round2 ((planValue.price * ((2 : Int) : ℚ) +
        ((userDebt.old_pending_amount : Int) : ℚ)) * 18 / 100) = 32364 / 100
    rw [round2_eq _ 32364 (by norm_num [planValue, userDebt, userActive])]
    norm_num
  · show round2 ((planValue.price * ((2 : Int) : ℚ) +
        ((userDebt.old_pending_amount : Int) : ℚ)) +
        round2 ((planValue.price * ((2 : Int) : ℚ) +
          ((userDebt.old_pending_amount : Int) : ℚ)) * 18 / 100)) = 212164 / 100
    rw [round2_eq ((planValue.price * ((2 : Int) : ℚ) +
        ((userDebt.old_pending_amount : Int) : ℚ)) * 18 / 100) 32364
        (by norm_num [planValue, userDebt, userActive])]
    rw [round2_eq _ 212164 (by norm_num [planValue, userDebt, userActive])]
    norm_num

/-- Witness for C4's universally quantified part, at the end-to-end
scenario's input. -/
theorem C4_invoice_arithmetic_witness :
    ∃ r inv,
      renew_user_plan nowJan10 "billing@isp.test" [planValue] [] [] userDebt 2 = .ok r ∧
      r.invoices = [] ++ [inv] ∧
      inv.subtotal = planValue.price * ((2 : Int) : ℚ) + ((userDebt.old_pending_amount : Int) : ℚ) ∧
      inv.gst_amount = round2 (inv.subtotal * 18 / 100) ∧
      inv.total_amount = round2 (inv.subtotal + inv.gst_amount) :=
  C4_invoice_arithmetic.1 nowJan10 "billing@isp.test" [planValue] [] [] userDebt 2
    planValue (by decide) (by decide) (by decide)

/-- C3: a renewal call with `months = 0` is rejected with the
"Months cannot be zero" validation error, and a reduction whose new expiry
(old expiry plus `months` calendar months) falls before today's date is
rejected with a validation error as well.  Both rejections happen before
any mutation is committed, so the returned `Except.error` carries no state:
the stored subscriber row, invoice table and billing-history table are
untouched. -/
theorem C3_renew_rejections (now : DateTime) (adminEmail : String)
    (plans : List Plan) (invoices : List Invoice)
    (history : List BillingHistory) (user : User) (months : Int) :
    (months = 0 →
      renew_user_plan now adminEmail plans invoices history user months =
        .error "Months cannot be zero") ∧
    (months < 0 → addMonths user.plan_expiry_date months < now.date →
      ∃ e, renew_user_plan now adminEmail plans invoices history user months =
        .error e) := by
  constructor
  · rintro rfl
    exact renew_zero_eq now adminEmail plans invoices history user
  · intro h1 hlt
    exact renew_reduce_rejected now adminEmail plans invoices history user
      months h1 hlt

/-- Witness for C3: the zero-month rejection, and the spec's `months = -2`
scenario on a subscriber expiring less than two months ahead. -/
theorem C3_renew_rejections_witness :
    (renew_user_plan nowJan10 "billing@isp.test" [planValue] [] [] userDebt 0 =
      .error "Months cannot be zero") ∧
    (∃ e, renew_user_plan nowJan10 "billing@isp.test" [planValue] [] [] userDebt (-2) =
      .error e) :=
  ⟨(C3_renew_rejections nowJan10 "billing@isp.test" [planValue] [] [] userDebt 0).1 rfl,
   (C3_renew_rejections nowJan10 "billing@isp.test" [planValue] [] [] userDebt (-2)).2
     (by decide) (by decide)⟩

/-- C9: a reduction (`months < 0`) that passes the below-current-date guard
also sets `is_plan_active = true`, `status = "Active"` and
`last_renewal_date = today` while shortening the expiry — so an accepted
reduction on an `Expired` or `Suspended` subscriber re-activates them —
and writes no invoice and no billing-history row. -/
theorem C9_reduction_reactivates (now : DateTime) (adminEmail : String)
    (plans : List Plan) (invoices : List Invoice)
    (history : List BillingHistory) (user : User) (months : Int)
    (h1 : months < 0) (h2 : -12 ≤ months)
    (h3 : ¬ (DateTime.ofDate (addMonths user.plan_expiry_date months)).key < now.key) :
    renew_user_plan now adminEmail plans invoices history user months =
      .ok { user := { user with
              plan_expiry_date := addMonths user.plan_expiry_date months,
              is_plan_active := true, status := "Active",
              last_renewal_date := some now.date },
            invoices := invoices, history := history,
            invoice_number := none, action := "reduced" } :=
  renew_neg_eq now adminEmail plans invoices history user months h1 h2 h3

/-- Witness for C9: reducing an `Expired` subscriber (expiry Jun 30 2025)
by two months on Jan 10 2025 succeeds, re-activates them, and the invoice
table stays empty. -/
theorem C9_reduction_reactivates_witness :
    renew_user_plan nowJan10 "billing@isp.test" [planBasic] [] [] userExpired (-2) =
      .ok { user := { userExpired with
              plan_expiry_date := addMonths userExpired.plan_expiry_date (-2),
              is_plan_active := true, status := "Active",
              last_renewal_date := some nowJan10.date },
            invoices := [], history := [],
            invoice_number := none, action := "reduced" } :=
  C9_reduction_reactivates nowJan10 "billing@isp.test" [planBasic] [] []
    userExpired (-2) (by decide) (by decide) (by decide)

theorem shouldExpire_iff (today : Date) (u : User) :
    shouldExpire today u = true ↔
      (u.is_plan_active = true ∧ u.plan_expiry_date ≤ today) := by
  simp [shouldExpire, and_comm]

/-- C5: one sweeper run flips exactly the subscribers with
`is_plan_active = true` and `plan_expiry_date ≤ today` to
`is_plan_active = false`, `status = "Expired"`,
`payment_status = "Pending"`, `payment_due_date = today + 15 days`
(the record update leaves `old_pending_amount` and all remaining fields as
they were), leaves every non-matching subscriber entirely unchanged, and
reports the number of flipped rows. -/
theorem C5_sweeper_frame (today : Date) (users : List User) :
    (check_and_expire_plans today users).expired_count =
      (users.filter (fun u =>
        u.is_plan_active && decide (u.plan_expiry_date ≤ today))).length ∧
    List.Forall₂ (fun u u' =>
      (u.is_plan_active = true ∧ u.plan_expiry_date ≤ today →
        u' = { u with
               is_plan_active := false, status := "Expired",
               payment_status := "Pending",
               payment_due_date := addDays today 15 }) ∧
      (¬ (u.is_plan_active = true ∧ u.plan_expiry_date ≤ today) → u' = u))
      users (check_and_expire_plans today users).users := by
  refine ⟨?_, ?_⟩
  · show (users.filter (shouldExpire today)).length = _
    congr 1
    apply List.filter_congr
    intro u _
    simp [shouldExpire, Bool.and_comm]
  · induction users with
    | nil => exact List.Forall₂.nil
    | cons u us ih =>
      refine List.Forall₂.cons ?_ ih
      by_cases h : shouldExpire today u = true
      · have hc := (shouldExpire_iff today u).mp h
        refine ⟨fun _ => ?_, fun hnc => absurd hc hnc⟩
        show (if shouldExpire today u then expireUser today u else u) = _
        rw [if_pos h]
        rfl
      · have hnc : ¬ (u.is_plan_active = true ∧ u.plan_expiry_date ≤ today) :=
          fun hc => h ((shouldExpire_iff today u).mpr hc)
        refine ⟨fun hc => absurd hc hnc, fun _ => ?_⟩
        show (if shouldExpire today u then expireUser today u else u) = u
        rw [if_neg h]

/-- Witness for C5 on a two-element table: the expired-and-active first
subscriber is flipped, the not-yet-expired second one is untouched. -/
theorem C5_sweeper_frame_witness :
    (check_and_expire_plans ⟨2025, 2, 1⟩ [userActive, userExpired]).expired_count = 1 ∧
    (check_and_expire_plans ⟨2025, 2, 1⟩ [userActive, userExpired]).users =
      [{ userActive with
         is_plan_active := false, status := "Expired",
         payment_status := "Pending", payment_due_date := addDays ⟨2025, 2, 1⟩ 15 },
       userExpired] :=
  ⟨(C5_sweeper_frame ⟨2025, 2, 1⟩ [userActive, userExpired]).1.trans (by decide),
   by decide⟩

/-- C6: the sweeper is idempotent within one day: feeding its output back
to a second run with the same date changes no subscriber and reports zero
expired records. -/
theorem C6_sweeper_idempotent (today : Date) (users : List User) :
    check_and_expire_plans today (check_and_expire_plans today users).users =
      ⟨(check_and_expire_plans today users).users, 0⟩ := by
  have key : ∀ u : User,
      shouldExpire today (if shouldExpire today u then expireUser today u else u)
        = false := by
    intro u
    by_cases h : shouldExpire today u = true
    · rw [if_pos h]
      simp [shouldExpire, expireUser]
    · rw [if_neg h]
      simpa using h
  simp only [check_and_expire_plans]
  refine congrArg₂ SweepResult.mk ?_ ?_
  · rw [List.map_map]
    apply List.map_congr_left
    intro u _
    show (if shouldExpire today _ then _ else _) = _
    rw [if_neg (by rw [key u]; exact Bool.false_ne_true)]
  · rw [List.length_eq_zero, List.filter_eq_nil_iff]
    intro a ha
    rcases List.mem_map.mp ha with ⟨u, _, rfl⟩
    rw [key u]
    exact Bool.false_ne_true

/-- C8 counterexample: the admin `create_user` handler creates the
subscriber with `status = "Active"` and `is_plan_active = true`, not in the
pending-installation state the claim asserts for every onboarding
operation. -/
theorem C8_counterexample :
    (create_user ⟨2025, 1, 10⟩ [] "usr_9" "CS_9999" "Ravi" "9876599999" "p1" none).map
        User.status = .ok "Active" ∧
    (create_user ⟨2025, 1, 10⟩ [] "usr_9" "CS_9999" "Ravi" "9876599999" "p1" none).map
        User.is_plan_active = .ok true ∧
    "Active" ≠ "Pending Installation" := by
  exact ⟨by decide, by decide, by decide⟩

/-- C8 amended: only the engineer's `add_new_customer` creates subscribers
with `status = "Pending Installation"` and `is_plan_active = false`; the
admin `create_user` handler creates them already `"Active"` with
`is_plan_active = true` (plan started immediately). -/
theorem C8_amended_onboarding :
    (∀ today phones plans newId name mobile password address planQuery u,
      add_new_customer today phones plans newId name mobile password address
          planQuery = .ok u →
      u.status = "Pending Installation" ∧ u.is_plan_active = false) ∧
    (∀ today phones newId cs_id name phone plan_id start u,
      create_user today phones newId cs_id name phone plan_id start = .ok u →
      u.status = "Active" ∧ u.is_plan_active = true) := by
  constructor
  · intro today phones plans newId name mobile password address planQuery u h
    simp only [add_new_customer] at h
    repeat' split at h
    all_goals first
      | exact Except.noConfusion h
      | (injection h with h2; subst h2; exact ⟨rfl, rfl⟩)
  · intro today phones newId cs_id name phone plan_id start u h
    simp only [create_user] at h
    repeat' split at h
    all_goals first
      | exact Except.noConfusion h
      | (injection h with h2; subst h2; exact ⟨rfl, rfl⟩)

/-- Witness for C8's amended statement: one engineer-created and one
admin-created subscriber. -/
theorem C8_amended_onboarding_witness :
    (add_new_customer ⟨2025, 1, 10⟩ [] [planBasic] "usr_8" "Meena Iyer"
        "9876588888" "secret77" "12 Lake View Road, Pune" "Basic" = .ok engCustomer ∧
      engCustomer.status = "Pending Installation" ∧
      engCustomer.is_plan_active = false) ∧
    (create_user ⟨2025, 1, 10⟩ [] "usr_9" "CS_9999" "Ravi" "9876599999" "p1" none =
        .ok adminCustomer ∧
      adminCustomer.status = "Active" ∧ adminCustomer.is_plan_active = true) := by
  have h1 := C8_amended_onboarding.1 ⟨2025, 1, 10⟩ [] [planBasic] "usr_8"
    "Meena Iyer" "9876588888" "secret77" "12 Lake View Road, Pune" "Basic"
    engCustomer (by decide)
  have h2 := C8_amended_onboarding.2 ⟨2025, 1, 10⟩ [] "usr_9" "CS_9999" "Ravi"
    "9876599999" "p1" none adminCustomer (by decide)
  exact ⟨⟨by decide, h1.1, h1.2⟩, ⟨by decide, h2.1, h2.2⟩⟩

/-- C10 counterexample: scheduling an installation for a date that lies in
the past is accepted — the handler parses the date but never compares it
with the current date. -/
theorem C10_counterexample :
    (⟨2020, 1, 1⟩ : Date) < ⟨2025, 6, 1⟩ ∧
    update_installation_task ⟨2025, 6, 1⟩ "eng_1" "ins_1" userActive none
        "Installation Scheduled" (some ⟨2020, 1, 1⟩) =
      .ok ({ userActive with status := "Installation Scheduled" },
        some { id := "ins_1", user_id := "usr_1", engineer_id := some "eng_1",
               status := "Installation Scheduled",
               scheduled_date := some ⟨2020, 1, 1⟩, completed_date := none }) := by
  exact ⟨by decide, by decide⟩

/-- C10 amended: the scheduling branch rejects only a missing (or, at the
HTTP layer, unparsable) `scheduled_date`; any well-formed date — past
dates included — is accepted, and on success the subscriber's status
becomes `"Installation Scheduled"`. -/
theorem C10_amended_scheduling :
    (∀ (today : Date) (engineerId newInstId : String) (user : User)
        (inst : Option Installation) (d : Date),
      ∃ i, update_installation_task today engineerId newInstId user inst
          "Installation Scheduled" (some d) =
        .ok ({ user with status := "Installation Scheduled" }, some i) ∧
      i.scheduled_date = some d) ∧
    (∀ (today : Date) (engineerId newInstId : String) (user : User)
        (inst : Option Installation),
      update_installation_task today engineerId newInstId user inst
          "Installation Scheduled" none =
        .error "scheduled_date is required for Installation Scheduled") := by
  constructor
  · intro today engineerId newInstId user inst d
    cases inst with
    | none =>
      refine ⟨{ id := newInstId, user_id := user.id, engineer_id := some engineerId,
                status := "Installation Scheduled", scheduled_date := some d,
                completed_date := none }, ?_, rfl⟩
      simp [update_installation_task]
    | some i0 =>
      refine ⟨{ i0 with
                status := "Installation Scheduled",
                engineer_id := some engineerId, scheduled_date := some d }, ?_, rfl⟩
      simp [update_installation_task]
  · intro today engineerId newInstId user inst
    simp [update_installation_task]

/-- C2 counterexample: scheduling an installation for a subscriber whose
plan is active (a state the admin `create_user` handler itself produces)
keeps `is_plan_active = true` but sets
`status = "Installation Scheduled"`, so after that lifecycle operation the
claimed invariant `is_plan_active ⇒ status = Active` is false. -/
theorem C2_counterexample :
    userActive.is_plan_active = true ∧ userActive.status = "Active" ∧
    update_installation_task ⟨2025, 6, 1⟩ "eng_1" "ins_1" userActive none
        "Installation Scheduled" (some ⟨2025, 6, 5⟩) =
      .ok ({ userActive with status := "Installation Scheduled" },
        some { id := "ins_1", user_id := "usr_1", engineer_id := some "eng_1",
               status := "Installation Scheduled",
               scheduled_date := some ⟨2025, 6, 5⟩, completed_date := none }) ∧
    ({ userActive with status := "Installation Scheduled" }).is_plan_active = true ∧
    ({ userActive with status := "Installation Scheduled" }).status ≠ "Active" := by
  exact ⟨by decide, by decide, by decide, by decide, by decide⟩

/-- C2 amended: after subscriber creation (admin or engineer), a
renewal/reduction, an installation completion, a billing update, or an
expiry sweep, `is_plan_active = true` implies `status = "Active"` (the
billing update and the sweep preserve it from the pre-state).
Installation *scheduling* is the exception the counterexample exhibits: it
keeps `is_plan_active` and sets `status = "Installation Scheduled"`, so it
breaks the implication exactly when applied to a subscriber with an active
plan. -/
theorem C2_amended_invariant :
    (∀ today phones newId cs_id name phone plan_id start u,
        create_user today phones newId cs_id name phone plan_id start = .ok u →
        activeImpliesActive u) ∧
    (∀ today phones plans newId name mobile password address planQuery u,
        add_new_customer today phones plans newId name mobile password address
          planQuery = .ok u →
        activeImpliesActive u) ∧
    (∀ now adminEmail plans invoices history user months r,
        renew_user_plan now adminEmail plans invoices history user months = .ok r →
        activeImpliesActive r.user) ∧
    (∀ today engineerId newInstId user inst sched res,
        update_installation_task today engineerId newInstId user inst
          "Completed" sched = .ok res →
        activeImpliesActive res.1) ∧
    (∀ adminEmail plans history user newPlanId newPayStatus newPending newDue
        newStart,
        (update_user_billing adminEmail plans history user newPlanId newPayStatus
          newPending newDue newStart).1.is_plan_active = user.is_plan_active ∧
        (update_user_billing adminEmail plans history user newPlanId newPayStatus
          newPending newDue newStart).1.status = user.status) ∧
    (∀ today users u', u' ∈ (check_and_expire_plans today users).users →
        (∀ u ∈ users, activeImpliesActive u) → activeImpliesActive u') ∧
    (∀ today engineerId newInstId user inst d u' i',
        update_installation_task today engineerId newInstId user inst
          "Installation Scheduled" (some d) = .ok (u', i') →
        u'.is_plan_active = user.is_plan_active ∧
        u'.status = "Installation Scheduled") := by
  refine ⟨?_, ?_, ?_, ?_, ?_, ?_, ?_⟩
  · intro today phones newId cs_id name phone plan_id start u h
    simp only [create_user] at h
    repeat' split at h
    all_goals first
      | exact Except.noConfusion h
      | (injection h with h2; subst h2; exact fun _ => rfl)
  · intro today phones plans newId name mobile password address planQuery u h
    simp only [add_new_customer] at h
    repeat' split at h
    all_goals first
      | exact Except.noConfusion h
      | (injection h with h2; subst h2; exact fun hb => Bool.noConfusion hb)
  · intro now adminEmail plans invoices history user months r h
    simp only [renew_user_plan] at h
    repeat' split at h
    all_goals first
      | exact Except.noConfusion h
      | (injection h with h2; subst h2; exact fun _ => rfl)
  · intro today engineerId newInstId user inst sched res h
    simp only [update_installation_task] at h
    repeat' split at h
    all_goals first
      | exact Except.noConfusion h
      | (injection h with h2; subst h2; exact fun _ => rfl)
      | simp_all
  · intro adminEmail plans history user newPlanId newPayStatus newPending newDue
      newStart
    exact ⟨rfl, rfl⟩
  · intro today users u' hmem hall
    rcases List.mem_map.mp hmem with ⟨u, hu, rfl⟩
    by_cases h : shouldExpire today u = true
    · rw [if_pos h]
      intro hb
      exact absurd hb (by simp [expireUser])
    · rw [if_neg h]
      exact hall u hu
  · intro today engineerId newInstId user inst d u' i' h
    simp only [update_installation_task] at h
    repeat' split at h
    all_goals first
      | exact Except.noConfusion h
      | (injection h with h2
         have hu : u' = _ := (congrArg Prod.fst h2).symm
         rw [hu]
         exact ⟨rfl, rfl⟩)
      | simp_all

/-- Witness for C2's amended statement: an accepted reduction on the
expired sample subscriber yields a row satisfying the invariant. -/
theorem C2_amended_invariant_witness :
    activeImpliesActive { userExpired with
      plan_expiry_date := ⟨2025, 4, 30⟩, is_plan_active := true,
      status := "Active", last_renewal_date := some ⟨2025, 1, 10⟩ } :=
  C2_amended_invariant.2.2.1 nowJan10 "billing@isp.test" [planBasic] [] []
    userExpired (-2)
    { user := { userExpired with
        plan_expiry_date := ⟨2025, 4, 30⟩, is_plan_active := true,
        status := "Active", last_renewal_date := some ⟨2025, 1, 10⟩ },
      invoices := [], history := [], invoice_number := none,
      action := "reduced" }
    (by decide)

theorem charsVal_append (l : List Char) (c : Char) :
    charsVal (l ++ [c]) = charsVal l * 10 + (c.toNat - 48) := by
  simp [charsVal, List.foldl_append]

theorem charsVal_cons_zero (t : List Char) :
    charsVal ('0' :: t) = charsVal t := rfl

theorem charsVal_zeros (k : Nat) (l : List Char) :
    charsVal (List.replicate k '0' ++ l) = charsVal l := by
  induction k with
  | zero => rfl
  | succ n ih => exact (charsVal_cons_zero (List.replicate n '0' ++ l)).trans ih

theorem digitChar_toNat : ∀ d < 10, (Nat.digitChar d).toNat = 48 + d := by decide

theorem charsVal_decDigitsAux :
    ∀ fuel n, n ≤ fuel →
      charsVal (((decDigitsAux fuel n).map Nat.digitChar).reverse) = n := by
  intro fuel
  induction fuel with
  | zero =>
    intro n hn
    interval_cases n
    rfl
  | succ f ih =>
    intro n hn
    by_cases h0 : n = 0
    · subst h0; rfl
    · have hd : decDigitsAux (f + 1) n = n % 10 :: decDigitsAux f (n / 10) := by
        simp [decDigitsAux, h0]
      rw [hd]
      simp only [List.map_cons, List.reverse_cons]
      rw [charsVal_append, ih (n / 10) (by omega),
        digitChar_toNat (n % 10) (by omega)]
      omega

theorem charsVal_decChars (n : Nat) : charsVal (decChars n) = n := by
  by_cases h : n = 0
  · subst h; rfl
  · rw [decChars, if_neg h]
    exact charsVal_decDigitsAux n n le_rfl

theorem charsVal_padChars (w n : Nat) : charsVal (padChars w n) = n := by
  rw [padChars, charsVal_zeros]
  exact charsVal_decChars n

theorem pad_injective (w a b : Nat) (h : pad w a = pad w b) : a = b := by
  have hd : padChars w a = padChars w b := congrArg String.data h
  have hv : charsVal (padChars w a) = charsVal (padChars w b) := congrArg charsVal hd
  rwa [charsVal_padChars, charsVal_padChars] at hv

theorem mkInvoiceNumber_inj (t : Date) (a b : Nat)
    (h : mkInvoiceNumber t a = mkInvoiceNumber t b) : a = b := by
  apply pad_injective 4
  have hd := congrArg String.data h
  simp only [mkInvoiceNumber, String.data_append, List.append_assoc] at hd
  have h1 := List.append_cancel_left hd
  have h2 := List.append_cancel_left h1
  have h3 := List.append_cancel_left h2
  exact congrArg String.mk h3

theorem countInvoicesToday_append_today (invoices : List Invoice)
    (today : Date) (inv : Invoice) (h : inv.created_at = today) :
    countInvoicesToday (invoices ++ [inv]) today =
      countInvoicesToday invoices today + 1 := by
  simp [countInvoicesToday, List.filter_append, List.filter_cons, h]

/-- C7: the number of the invoice written by each renewal is
`INV-{today:%Y%m%d}-{seq:04d}` with `seq` one more than the number of
invoices already created that day, and `N` back-to-back renewals starting
from a table with `c` invoices of today produce the numbers with
consecutive, pairwise distinct sequence suffixes `c+1, …, c+N`. -/
theorem C7_invoice_numbering (now : DateTime) (adminEmail : String)
    (plans : List Plan) (months : Int) (plan : Plan) (N : Nat) :
    ∀ (user : User) (invoices : List Invoice),
      0 < months → months ≤ 12 →
      findPlan plans user.broadband_plan_id = some plan →
      genNumbers now adminEmail plans months N user invoices =
        (List.range N).map (fun k =>
          mkInvoiceNumber now.date (countInvoicesToday invoices now.date + k + 1)) ∧
      (genNumbers now adminEmail plans months N user invoices).Nodup := by
  induction N with
  | zero =>
    intro user invoices h1 h2 hp
    exact ⟨rfl, List.nodup_nil⟩
  | succ n ih =>
    intro user invoices h1 h2 hp
    have hr := renew_pos_eq now adminEmail plans invoices [] user months plan h1 h2 hp
    have hgen : genNumbers now adminEmail plans months (n + 1) user invoices =
        mkInvoiceNumber now.date (countInvoicesToday invoices now.date + 1) ::
          genNumbers now adminEmail plans months n
            { user with
              plan_expiry_date := addMonths user.plan_expiry_date months,
              is_plan_active := true, status := "Active",
              last_renewal_date := some now.date }
            (invoices ++ [renewalInvoice now adminEmail invoices user plan months]) := by
      simp [genNumbers, hr]
    have hp' : findPlan plans
        ({ user with
           plan_expiry_date := addMonths user.plan_expiry_date months,
           is_plan_active := true, status := "Active",
           last_renewal_date := some now.date } : User).broadband_plan_id =
        some plan := hp
    have hcount : countInvoicesToday
        (invoices ++ [renewalInvoice now adminEmail invoices user plan months])
        now.date = countInvoicesToday invoices now.date + 1 :=
      countInvoicesToday_append_today invoices now.date _ rfl
    obtain ⟨ihEq, ihNodup⟩ := ih
      { user with
        plan_expiry_date := addMonths user.plan_expiry_date months,
        is_plan_active := true, status := "Active",
        last_renewal_date := some now.date }
      (invoices ++ [renewalInvoice now adminEmail invoices user plan months])
      h1 h2 hp'
    rw [hcount] at ihEq
    constructor
    · rw [hgen, ihEq, List.range_succ_eq_map]
      simp only [List.map_cons, List.map_map]
      congr 1
      apply List.map_congr_left
      intro k _
      show mkInvoiceNumber now.date (countInvoicesToday invoices now.date + 1 + k + 1) =
        mkInvoiceNumber now.date (countInvoicesToday invoices now.date + (k + 1) + 1)
      exact congrArg (mkInvoiceNumber now.date) (by omega)
    · rw [hgen, List.nodup_cons]
      refine ⟨?_, ihNodup⟩
      intro hmem
      rw [ihEq] at hmem
      rcases List.mem_map.mp hmem with ⟨k, hk, heq⟩
      have := mkInvoiceNumber_inj now.date _ _ heq
      omega

/-- Witness for C7: three consecutive renewals on Jan 10 2025 starting
from an empty invoice table yield the gap-free, distinct numbers 0001,
0002, 0003. -/
theorem C7_invoice_numbering_witness :
    genNumbers nowJan10 "billing@isp.test" [planBasic] 1 3 userActive [] =
      ["INV-20250110-0001", "INV-20250110-0002", "INV-20250110-0003"] ∧
    (genNumbers nowJan10 "billing@isp.test" [planBasic] 1 3 userActive []).Nodup := by
  have h := C7_invoice_numbering nowJan10 "billing@isp.test" [planBasic] 1 planBasic 3
    userActive [] (by decide) (by decide) (by decide)
  exact ⟨h.1.trans (by decide), h.2⟩

end Broadband
